import Mathlib

/-!
# Edit history of the `miniproj` image editor

A shallow embedding of `src/miniproj.cpp`: the window class `miniproj` becomes a record of
its data members, every slot `on_..._clicked` becomes a function on that record, and what the
slot reads from a widget (a slider value, a text field, the file chosen in a dialog) becomes
an argument of the function.

Images are values here, so `cv::Mat::clone()` is the identity.  This is sound for the code
at hand: every image the class stores in a member or on a stack is either the result of
`clone()` or the freshly written destination of an OpenCV call whose buffer no other member
shares, so no two stored images alias.

The calls that only draw or inform (`displayImage`, `updateImageInfo`, the message boxes)
change no data member and are left out.

A slot can fail in three places.  Taking `top()` of an empty stack and cutting a rectangle
that leaves the matrix are the result `none` of the slots concerned; both are proved never
to happen.  The third, the assertion of `Mat::setTo` in the hue slot, does happen: the slot
then ends in `Outcome.thrown` with the members as they are at the throw, and a run of
button presses ends there.

The OpenCV calls whose result depends on floating point or on tables of the library
(`GaussianBlur`, `cvtColor`, scaling a channel by a real factor, the row fade of the
gradient) are fields of `ImageOps`; every theorem holds for all values of that record.
The calls that are pure index or integer arithmetic (`Mat::operator()(Rect)`, `cv::flip`,
`convertTo` with unit scale, saturating `+=`, masked `setTo`) are defined below.
-/

namespace Miniproj

/-! ## Images -/

/-- One pixel, as the list of its channel values (three for a colour image). -/
abbrev Pixel := List Nat

/-- The part of `cv::Mat` the editor relies on: the two dimensions and the pixel rows. -/
structure Mat where
  rows : Nat
  cols : Nat
  data : List (List Pixel)
deriving DecidableEq, Repr

/-- The record `cv::Rect`, with the four `int` members. -/
structure Rect where
  x : Int
  y : Int
  width : Int
  height : Int
deriving DecidableEq, Repr

namespace Mat

/-- The default constructed `cv::Mat()`, which is also what `imread` returns on failure. -/
def noArray : Mat := { rows := 0, cols := 0, data := [] }

/-- Number of elements, `cv::Mat::total()`. -/
def total (m : Mat) : Nat := m.rows * m.cols

/-- The test `cv::Mat::empty()`: the matrix has no element. -/
def empty (m : Mat) : Bool := m.total == 0

/-- The deep copy `cv::Mat::clone()`. -/
def clone (m : Mat) : Mat := m

/-- The pixel buffer has `rows` rows of `cols` pixels each. -/
def WF (m : Mat) : Prop :=
  m.data.length = m.rows ∧ ∀ r ∈ m.data, r.length = m.cols

/-- The pixel in row `y`, column `x`, when there is one. -/
def pixelAt (m : Mat) (y x : Nat) : Option Pixel :=
  (m.data[y]?).bind (fun r => r[x]?)

/-- Overwrite the pixel in row `y`, column `x` (the write through `at<Vec3b>(y, x)`). -/
def setPixel (m : Mat) (y x : Nat) (p : Pixel) : Mat :=
  { m with data := m.data.set y ((m.data.getD y []).set x p) }

/-- The pixels of the rectangle `r` of `m`: rows `r.y` to `r.y + r.height`, and of each
the columns `r.x` to `r.x + r.width`. -/
def subMat (m : Mat) (r : Rect) : Mat :=
  { rows := r.height.toNat
    cols := r.width.toNat
    data := ((m.data.drop r.y.toNat).take r.height.toNat).map
      (fun row => (row.drop r.x.toNat).take r.width.toNat) }

/-- The submatrix `m(r)`, `cv::Mat::operator()(const Rect&)`.  OpenCV asserts that the
rectangle lies inside the matrix and throws otherwise; that is the result `none`. -/
def roi (m : Mat) (r : Rect) : Option Mat :=
  if 0 ≤ r.x ∧ 0 ≤ r.width ∧ r.x + r.width ≤ (m.cols : Int) ∧
      0 ≤ r.y ∧ 0 ≤ r.height ∧ r.y + r.height ≤ (m.rows : Int) then
    some (m.subMat r)
  else
    Option.none

/-- Apply `f` to channel `k` of every pixel: `cv::split`, an elementwise operation on
`channels[k]`, then `cv::merge`. -/
def mapChannel (k : Nat) (f : Nat → Nat) (m : Mat) : Mat :=
  { m with data := m.data.map (fun row => row.map (fun px => px.set k (f (px.getD k 0)))) }

/-- Channel `k` of `m` as a matrix of one channel, the entry `k` of `cv::split`. -/
def channel (m : Mat) (k : Nat) : Mat :=
  { m with data := m.data.map (fun row => row.map (fun px => [px.getD k 0])) }

end Mat

/-- The test `checkScalar` that `Mat::setTo` asserts of its value argument, for a target of
one channel: the value has to have the shape of a scalar, one row and one column. -/
def checkScalar (value : Mat) : Bool :=
  value.rows == 1 && value.cols == 1

/-- Whether `target.setTo(value, mask)` returns: it returns at once on an empty target and
otherwise asserts `checkScalar` of the value before it looks at the mask. -/
def setToReturns (target value : Mat) : Bool :=
  target.empty || checkScalar value

/-- The conversion `saturate_cast<uchar>` from an integer: clamp to `[0, 255]`. -/
def saturate_cast_uchar (v : Int) : Nat :=
  if v < 0 then 0 else if v > 255 then 255 else v.toNat

/-- The call `cv::flip(src, dst, flipCode)`: `0` reverses the order of the rows (around the
x-axis), a positive code reverses every row (around the y-axis), a negative code does both. -/
def flip (src : Mat) (flipCode : Int) : Mat :=
  if flipCode = 0 then { src with data := src.data.reverse }
  else if 0 < flipCode then { src with data := src.data.map List.reverse }
  else { src with data := (src.data.map List.reverse).reverse }

/-- The call `src.convertTo(dst, -1, 1, beta)` on an 8-bit image: same type, every channel
value becomes `saturate_cast<uchar>(v * 1 + beta)`. -/
def convertTo (src : Mat) (beta : Int) : Mat :=
  { src with
    data := src.data.map (fun row =>
      row.map (fun px => px.map (fun v => saturate_cast_uchar ((v : Int) + beta)))) }

/-- The colour conversion codes the editor uses. -/
inductive ColorConversionCode where
  | COLOR_BGR2GRAY
  | COLOR_GRAY2RGB
  | COLOR_BGR2HSV
  | COLOR_HSV2BGR
deriving DecidableEq, Repr

/-- The image operations of the external library that are not modelled arithmetically.
    * `GaussianBlur src k` is `cv::GaussianBlur(src, dst, cv::Size(k, k), 0)`;
    * `cvtColor src code` is `cv::cvtColor(src, dst, code)`;
    * `scaleChannel v s` is one element of `channel * (s / 100.0)`;
    * `fade y rows g c` is `static_cast<uchar>(c * alpha)` for the `alpha` the gradient
      loop computes in row `y` of `rows` at slider value `g`.
The two laws say that `cvtColor` returns an image of the size of its source. -/
structure ImageOps where
  GaussianBlur : Mat → Int → Mat
  cvtColor : Mat → ColorConversionCode → Mat
  scaleChannel : Nat → Int → Nat
  fade : Nat → Nat → Int → Nat → Nat
  cvtColor_rows : ∀ (src : Mat) (code : ColorConversionCode), (cvtColor src code).rows = src.rows
  cvtColor_cols : ∀ (src : Mat) (code : ColorConversionCode), (cvtColor src code).cols = src.cols

/-! ## The hue channel -/

/-- What `on_hueButton_clicked` does to the element `h` of an 8-bit hue channel of one
element, the only size at which both `setTo` calls return.  The sum
`hsvChannels[0] += hueValue` saturates to `[0, 255]`; if the element is below 0 the first
`setTo` writes `180 + element`; if it is then above 180 the second `setTo` writes
`element - 180`; both value expressions are 8-bit saturating. -/
def hueElement (h : Nat) (hueValue : Int) : Nat :=
  let v1 := saturate_cast_uchar ((h : Int) + hueValue)
  let v2 := if (v1 : Int) < 0 then saturate_cast_uchar (180 + (v1 : Int)) else v1
  let v3 := if (v2 : Int) > 180 then saturate_cast_uchar ((v2 : Int) - 180) else v2
  v3

/-! ## The editor state -/

/-- The data members of the class `miniproj`.  Both stacks are lists whose head is the top
of the `std::stack`. -/
structure miniproj where
  image : Mat
  preprocessedImage : Mat
  undoStack : List Mat
  redoStack : List Mat
  isgrayscaled : Bool
  isflipped : Bool
  valuex : Int
  valuey : Int
deriving DecidableEq, Repr

/-- How a slot ends: it returns, or an OpenCV assertion throws out of it.  Either way the
argument holds the data members as the slot leaves them. -/
inductive Outcome where
  | returned (s : miniproj)
  | thrown (s : miniproj)
deriving DecidableEq, Repr

/-- The data members a slot leaves behind. -/
def Outcome.state : Outcome → miniproj
  | Outcome.returned s => s
  | Outcome.thrown s => s

/-- The loop `while (!st.empty()) st.pop();`. -/
def popAll : List Mat → List Mat
  | [] => []
  | _ :: rest => popAll rest

/-- The conversion `QString::toInt(&ok)` of a text field.  The argument stands for the text:
`none` for a text that does not convert to an `int`, for which Qt returns `0` and sets `ok`
to false, and `some v` for a text that converts to `v`. -/
def toInt : Option Int → Int × Bool
  | Option.none => (0, false)
  | some v => (v, true)

/-- The method `miniproj::saveCurrentState`. -/
def saveCurrentState (s : miniproj) : miniproj :=
  let s1 :=
    if !s.preprocessedImage.empty then
      { s with undoStack := s.preprocessedImage.clone :: s.undoStack }
    else if !s.image.empty then
      { s with undoStack := s.image.clone :: s.undoStack }
    else s
  { s1 with redoStack := popAll s1.redoStack }

/-- The slot `miniproj::on_browseButton_clicked`.  The argument is `none` when the file dialog
returns an empty name and otherwise the result of `cv::imread` on the chosen file. -/
def on_browseButton_clicked (s : miniproj) (file : Option Mat) : miniproj :=
  match file with
  | Option.none => s
  | some read =>
    let s1 := { s with image := read }
    if s1.image.empty then s1
    else
      let s2 := { s1 with undoStack := popAll s1.undoStack }
      let s3 := { s2 with redoStack := popAll s2.redoStack }
      let s4 := { s3 with undoStack := s3.image.clone :: s3.undoStack }
      let s5 := { s4 with preprocessedImage := s4.image.clone }
      { s5 with isgrayscaled := false, isflipped := false }

/-- The slot `miniproj::on_blurButton_clicked`, at slider value `blurValue`. -/
def on_blurButton_clicked (ops : ImageOps) (s : miniproj) (blurValue : Int) : miniproj :=
  if s.image.empty then s
  else
    let s1 := saveCurrentState s
    let kernelSize := if blurValue.tmod 2 = 0 then blurValue + 1 else blurValue
    let kernelSize := max 1 (min kernelSize 31)
    { s1 with preprocessedImage := ops.GaussianBlur s1.image kernelSize }

/-- The slot `miniproj::on_cropButton_clicked`, with the contents of the two text fields.  The
result is `none` when the submatrix operator would throw. -/
def on_cropButton_clicked (s : miniproj) (axisX axisY : Option Int) : Option miniproj :=
  if s.image.empty then some s
  else
    let s1 := { s with valuex := (toInt axisX).1, valuey := (toInt axisY).1 }
    let okX := (toInt axisX).2
    let okY := (toInt axisY).2
    if !okX || !okY then some s1
    else if s1.valuex ≤ 0 ∨ s1.valuey ≤ 0 then some s1
    else if s1.valuex > (s1.image.cols : Int) ∨ s1.valuey > (s1.image.rows : Int) then some s1
    else
      let s2 := saveCurrentState s1
      let x := ((s2.image.cols : Int) - s2.valuex).tdiv 2
      let y := ((s2.image.rows : Int) - s2.valuey).tdiv 2
      let region : Rect := { x := x, y := y, width := s2.valuex, height := s2.valuey }
      match s2.image.roi region with
      | Option.none => Option.none
      | some sub => some { s2 with preprocessedImage := sub.clone }

/-- The slot `miniproj::on_grayscaleButton_clicked` -/
def on_grayscaleButton_clicked (ops : ImageOps) (s : miniproj) : miniproj :=
  if s.image.empty then s
  else
    let s1 := saveCurrentState s
    if s1.isgrayscaled then
      { s1 with preprocessedImage := s1.image.clone, isgrayscaled := false }
    else
      let gray := ops.cvtColor s1.image ColorConversionCode.COLOR_BGR2GRAY
      { s1 with
        preprocessedImage := ops.cvtColor gray ColorConversionCode.COLOR_GRAY2RGB
        isgrayscaled := true }

/-- The slot `miniproj::on_HflipButton_clicked` -/
def on_HflipButton_clicked (s : miniproj) : miniproj :=
  if s.image.empty then s
  else
    let s1 := saveCurrentState s
    if s1.isflipped then
      { s1 with preprocessedImage := s1.image.clone, isflipped := false }
    else
      { s1 with preprocessedImage := flip s1.image 1, isflipped := true }

/-- The slot `miniproj::on_VflipButton_clicked` -/
def on_VflipButton_clicked (s : miniproj) : miniproj :=
  if s.image.empty then s
  else
    let s1 := saveCurrentState s
    if s1.isflipped then
      { s1 with preprocessedImage := s1.image.clone, isflipped := false }
    else
      { s1 with preprocessedImage := flip s1.image 0, isflipped := true }

/-- The slot `miniproj::on_undoButton_clicked`.  The result is `none` when `undoStack.top()` would
be taken of an empty stack. -/
def on_undoButton_clicked (s : miniproj) : Option miniproj :=
  if s.undoStack.length ≤ 1 then some s
  else
    let s1 :=
      if !s.preprocessedImage.empty then
        { s with redoStack := s.preprocessedImage.clone :: s.redoStack }
      else s
    let s2 := { s1 with undoStack := s1.undoStack.tail }
    match s2.undoStack.head? with
    | Option.none => Option.none
    | some top => some { s2 with preprocessedImage := top.clone }

/-- The slot `miniproj::on_redoButton_clicked`.  The result is `none` when `redoStack.top()` would
be taken of an empty stack. -/
def on_redoButton_clicked (s : miniproj) : Option miniproj :=
  if s.redoStack.isEmpty then some s
  else
    let s1 := { s with undoStack := s.preprocessedImage.clone :: s.undoStack }
    match s1.redoStack.head? with
    | Option.none => Option.none
    | some top =>
      some { s1 with preprocessedImage := top.clone, redoStack := s1.redoStack.tail }

/-- The slot `miniproj::on_saturationButton_clicked`, at slider value `saturationValue`. -/
def on_saturationButton_clicked (ops : ImageOps) (s : miniproj) (saturationValue : Int) :
    miniproj :=
  if s.image.empty then s
  else
    let s1 := saveCurrentState s
    let hsvImage := ops.cvtColor s1.image ColorConversionCode.COLOR_BGR2HSV
    let hsvImage := hsvImage.mapChannel 1 (fun v => ops.scaleChannel v saturationValue)
    { s1 with preprocessedImage := ops.cvtColor hsvImage ColorConversionCode.COLOR_HSV2BGR }

/-- The slot `miniproj::on_hueButton_clicked`, at slider value `hueValue`.  The value the
source passes to the first `setTo`, `180 + hsvChannels[0]`, is a matrix of the size of the
hue channel, and so is the value of the second; `setTo` throws unless that is the shape of
a scalar, so `setToReturns` gets the hue channel both as the target and for the shape of
the value.  The throw comes after `saveCurrentState` and before `preprocessedImage` is
assigned. -/
def on_hueButton_clicked (ops : ImageOps) (s : miniproj) (hueValue : Int) : Outcome :=
  if s.image.empty then Outcome.returned s
  else
    let s1 := saveCurrentState s
    let hsvImage := ops.cvtColor s1.image ColorConversionCode.COLOR_BGR2HSV
    let hue := hsvImage.channel 0
    if setToReturns hue hue then
      let hsvImage := hsvImage.mapChannel 0 (fun h => hueElement h hueValue)
      Outcome.returned
        { s1 with preprocessedImage := ops.cvtColor hsvImage ColorConversionCode.COLOR_HSV2BGR }
    else
      Outcome.thrown s1

/-- The slot `miniproj::on_brightnessButton_clicked`, at slider value `brightnessValue`. -/
def on_brightnessButton_clicked (s : miniproj) (brightnessValue : Int) : miniproj :=
  if s.image.empty then s
  else
    let s1 := saveCurrentState s
    { s1 with preprocessedImage := convertTo s1.image brightnessValue }

/-- The two nested loops of `on_gradientButton_clicked`: every pixel `(y, x)` of `dst`
with `y < src.rows` and `x < src.cols` is overwritten by the faded pixel of `src`. -/
def gradientLoop (ops : ImageOps) (src dst : Mat) (gradientValue : Int) : Mat :=
  (List.range src.rows).foldl
    (fun acc y =>
      (List.range src.cols).foldl
        (fun acc x =>
          let color := (src.pixelAt y x).getD []
          acc.setPixel y x
            [ops.fade y src.rows gradientValue (color.getD 0 0),
             ops.fade y src.rows gradientValue (color.getD 1 0),
             ops.fade y src.rows gradientValue (color.getD 2 0)])
        acc)
    dst

/-- The slot `miniproj::on_gradientButton_clicked`, at slider value `gradientValue`. -/
def on_gradientButton_clicked (ops : ImageOps) (s : miniproj) (gradientValue : Int) :
    miniproj :=
  if s.image.empty then s
  else
    let s1 := saveCurrentState s
    let s2 := { s1 with preprocessedImage := s1.image.clone }
    { s2 with preprocessedImage := gradientLoop ops s2.image s2.preprocessedImage gradientValue }

/-! ## Sequences of button presses -/

/-- A press of one of the edit or history buttons, with what the slot reads from the
widgets. -/
inductive Op where
  | blur (blurValue : Int)
  | crop (axisX axisY : Option Int)
  | grayscale
  | Hflip
  | Vflip
  | saturation (saturationValue : Int)
  | hue (hueValue : Int)
  | brightness (brightnessValue : Int)
  | gradient (gradientValue : Int)
  | undo
  | redo
deriving DecidableEq, Repr

/-- Run the slot of one button press. -/
def step (ops : ImageOps) (s : miniproj) : Op → Option Outcome
  | Op.blur v => some (Outcome.returned (on_blurButton_clicked ops s v))
  | Op.crop ax ay => (on_cropButton_clicked s ax ay).map Outcome.returned
  | Op.grayscale => some (Outcome.returned (on_grayscaleButton_clicked ops s))
  | Op.Hflip => some (Outcome.returned (on_HflipButton_clicked s))
  | Op.Vflip => some (Outcome.returned (on_VflipButton_clicked s))
  | Op.saturation v => some (Outcome.returned (on_saturationButton_clicked ops s v))
  | Op.hue v => some (on_hueButton_clicked ops s v)
  | Op.brightness v => some (Outcome.returned (on_brightnessButton_clicked s v))
  | Op.gradient v => some (Outcome.returned (on_gradientButton_clicked ops s v))
  | Op.undo => (on_undoButton_clicked s).map Outcome.returned
  | Op.redo => (on_redoButton_clicked s).map Outcome.returned

/-- Run a sequence of button presses, first press first.  A press whose slot throws ends
the run: the exception leaves the slot uncaught. -/
def run (ops : ImageOps) : miniproj → List Op → Option Outcome
  | s, [] => some (Outcome.returned s)
  | s, op :: rest =>
    match step ops s op with
    | Option.none => Option.none
    | some (Outcome.returned s1) => run ops s1 rest
    | some (Outcome.thrown s1) => some (Outcome.thrown s1)

/-- The crop request passes the three checks of `on_cropButton_clicked` on an image of
`cols` by `rows` pixels. -/
def cropAccepted (m : Mat) (axisX axisY : Option Int) : Prop :=
  ∃ w h : Int, axisX = some w ∧ axisY = some h ∧
    0 < w ∧ w ≤ (m.cols : Int) ∧ 0 < h ∧ h ≤ (m.rows : Int)

/-- The press is one of the three edits that always compute the current image from the
original by a library call with a slider value: blur, saturation, brightness. -/
def Op.isRecompute : Op → Prop
  | Op.blur _ => True
  | Op.saturation _ => True
  | Op.brightness _ => True
  | _ => False

/-- The hue slot returns on the original `m`: `m` is a single pixel. -/
def hueReturns (m : Mat) : Prop := m.rows = 1 ∧ m.cols = 1

/-- The slot of the press returns on the original `m`; the one slot that may not is that
of the hue button. -/
def Op.returnsOn (m : Mat) : Op → Prop
  | Op.hue _ => hueReturns m
  | _ => True

/-- The press is one of the nine edits, and a crop among them is an accepted one. -/
def Op.isAppliedEdit (m : Mat) : Op → Prop
  | Op.crop ax ay => cropAccepted m ax ay
  | Op.undo => False
  | Op.redo => False
  | _ => True

/-! ## Auxiliary definitions for the statements -/

/-- The image `saveCurrentState` pushes when the original is not empty. -/
def snapshot (s : miniproj) : Mat :=
  if s.preprocessedImage.empty then s.image else s.preprocessedImage

/-- The rectangle `on_cropButton_clicked` builds for an accepted request of `w` by `h`
pixels on the original `m`. -/
def cropRegion (m : Mat) (w h : Int) : Rect :=
  { x := ((m.cols : Int) - w).tdiv 2, y := ((m.rows : Int) - h).tdiv 2, width := w, height := h }

/-- The crop request fails one of the three checks of `on_cropButton_clicked`: a field is
not a number, a dimension is not positive, or a dimension exceeds that of `m`. -/
def cropRejected (m : Mat) (axisX axisY : Option Int) : Prop :=
  axisX = Option.none ∨ axisY = Option.none ∨
    ∃ w h : Int, axisX = some w ∧ axisY = some h ∧
      (w ≤ 0 ∨ h ≤ 0 ∨ w > (m.cols : Int) ∨ h > (m.rows : Int))

/-! ## Concrete values for evaluating the definitions -/

/-- A value of `ImageOps` for running the editor on concrete inputs: the blur and the
colour conversions return their source, scaling and fading are integer approximations.
No theorem below assumes anything about it. -/
def sampleOps : ImageOps where
  GaussianBlur := fun src _ => src
  cvtColor := fun src _ => src
  scaleChannel := fun v s => saturate_cast_uchar ((v : Int) * s / 100)
  fade := fun y rows g c => saturate_cast_uchar ((c : Int) * (100 * rows - y * g) / (100 * rows))
  cvtColor_rows := fun _ _ => rfl
  cvtColor_cols := fun _ _ => rfl

/-- An editor in which no image has been loaded yet. -/
def sampleStart : miniproj :=
  { image := Mat.noArray
    preprocessedImage := Mat.noArray
    undoStack := []
    redoStack := []
    isgrayscaled := false
    isflipped := false
    valuex := 0
    valuey := 0 }

/-- A colour image of two rows and two columns. -/
def sampleImage : Mat :=
  { rows := 2
    cols := 2
    data := [[[10, 20, 30], [40, 50, 60]], [[70, 80, 90], [100, 110, 250]]] }

/-- The editor right after `sampleImage` has been loaded. -/
def sampleLoaded : miniproj := on_browseButton_clicked sampleStart (some sampleImage)

/-! ## Bookkeeping lemmas -/

theorem popAll_eq_nil (l : List Mat) : popAll l = [] := by
  induction l with
  | nil => rfl
  | cons _ _ ih => simpa [popAll] using ih

theorem saveCurrentState_eq (s : miniproj) (h : s.image.empty = false) :
    saveCurrentState s = { s with undoStack := snapshot s :: s.undoStack, redoStack := [] } := by
  unfold saveCurrentState snapshot
  cases hp : s.preprocessedImage.empty <;> simp [h, Mat.clone, popAll_eq_nil]

theorem crop_origin_bounds (W w : Int) (h1 : w ≤ W) :
    (W - w).tdiv 2 = (W - w) / 2 ∧ 0 ≤ (W - w).tdiv 2 ∧ (W - w).tdiv 2 + w ≤ W := by
  have e : (W - w).tdiv 2 = (W - w) / 2 := Int.tdiv_eq_ediv (by omega) (by omega)
  rw [e]
  refine ⟨rfl, ?_, ?_⟩ <;> omega

theorem roi_cropRegion (m : Mat) (w h : Int) (hw0 : 0 < w) (hw : w ≤ (m.cols : Int))
    (hh0 : 0 < h) (hh : h ≤ (m.rows : Int)) :
    m.roi (cropRegion m w h) = some (Mat.subMat m (cropRegion m w h)) := by
  obtain ⟨_, hx0, hx1⟩ := crop_origin_bounds (m.cols : Int) w hw
  obtain ⟨_, hy0, hy1⟩ := crop_origin_bounds (m.rows : Int) h hh
  have hc : 0 ≤ (cropRegion m w h).x ∧ 0 ≤ (cropRegion m w h).width ∧
      (cropRegion m w h).x + (cropRegion m w h).width ≤ (m.cols : Int) ∧
      0 ≤ (cropRegion m w h).y ∧ 0 ≤ (cropRegion m w h).height ∧
      (cropRegion m w h).y + (cropRegion m w h).height ≤ (m.rows : Int) :=
    ⟨hx0, le_of_lt hw0, hx1, hy0, le_of_lt hh0, hy1⟩
  unfold Mat.roi
  rw [if_pos hc]

/-- The state an accepted crop request leads to. -/
theorem crop_accepted_eq (s : miniproj) (w h : Int) (hne : s.image.empty = false)
    (hw0 : 0 < w) (hw : w ≤ (s.image.cols : Int)) (hh0 : 0 < h)
    (hh : h ≤ (s.image.rows : Int)) :
    on_cropButton_clicked s (some w) (some h) =
      some { s with
        valuex := w
        valuey := h
        undoStack := snapshot s :: s.undoStack
        redoStack := []
        preprocessedImage := Mat.subMat s.image (cropRegion s.image w h) } := by
  have hroi := roi_cropRegion s.image w h hw0 hw hh0 hh
  have hsnap : snapshot { s with valuex := w, valuey := h } = snapshot s := rfl
  have hsave := saveCurrentState_eq { s with valuex := w, valuey := h } hne
  unfold on_cropButton_clicked
  simp only [hne, toInt, Bool.false_eq_true, if_false, Bool.not_true, Bool.or_self]
  rw [if_neg (by omega), if_neg (by omega), hsave]
  simp only [hsnap]
  unfold cropRegion at hroi
  rw [hroi]
  rfl

theorem map_returned_eq {x : Option miniproj} {t : miniproj} (h : x = some t) :
    x.map Outcome.returned = some (Outcome.returned t) := by
  rw [h]; rfl

/-- The hue slot throws on an original that is not a single pixel, with the members as
`saveCurrentState` leaves them. -/
theorem hue_throws (ops : ImageOps) (s : miniproj) (v : Int) (h : s.image.empty = false)
    (hbig : ¬ hueReturns s.image) :
    on_hueButton_clicked ops s v = Outcome.thrown (saveCurrentState s) := by
  have hi : (saveCurrentState s).image = s.image := by rw [saveCurrentState_eq s h]
  have he : (s.image.rows * s.image.cols == 0) = false := h
  have hne : ¬ (s.image.rows * s.image.cols = 0) := by simpa using he
  unfold on_hueButton_clicked
  simp only [h, Bool.false_eq_true, if_false, hi]
  rw [if_neg]
  simp only [setToReturns, checkScalar, Mat.empty, Mat.total, Mat.channel,
    ops.cvtColor_rows, ops.cvtColor_cols, Bool.or_eq_true, Bool.and_eq_true, beq_iff_eq]
  rintro (h0 | h1)
  · exact hne h0
  · exact hbig h1

/-- The hue slot returns on an original of a single pixel. -/
theorem hue_returns (ops : ImageOps) (s : miniproj) (v : Int) (h : s.image.empty = false)
    (hone : hueReturns s.image) :
    on_hueButton_clicked ops s v =
      Outcome.returned
        { s with
          undoStack := snapshot s :: s.undoStack
          redoStack := []
          preprocessedImage :=
            ops.cvtColor
              ((ops.cvtColor s.image ColorConversionCode.COLOR_BGR2HSV).mapChannel 0
                (fun x => hueElement x v))
              ColorConversionCode.COLOR_HSV2BGR } := by
  have hret : setToReturns
      ((ops.cvtColor s.image ColorConversionCode.COLOR_BGR2HSV).channel 0)
      ((ops.cvtColor s.image ColorConversionCode.COLOR_BGR2HSV).channel 0) = true := by
    simp only [setToReturns, checkScalar, Mat.channel, ops.cvtColor_rows, ops.cvtColor_cols,
      Bool.or_eq_true, Bool.and_eq_true, beq_iff_eq]
    exact Or.inr hone
  unfold on_hueButton_clicked
  simp only [h, Bool.false_eq_true, if_false, saveCurrentState_eq s h, hret, if_true]

/-- What the press of an edit button does to the history, whatever image it computes and
whether its slot returns or throws. -/
theorem step_edit (ops : ImageOps) (s : miniproj) (e : Op) (h : s.image.empty = false)
    (he : e.isAppliedEdit s.image) :
    ∃ o, step ops s e = some o ∧ o.state.image = s.image ∧
      o.state.undoStack = snapshot s :: s.undoStack ∧ o.state.redoStack = [] ∧
      (e.returnsOn s.image → ∃ t, o = Outcome.returned t) := by
  cases e with
  | blur v =>
    exact ⟨_, rfl, by simp [Outcome.state, on_blurButton_clicked, h, saveCurrentState_eq],
      by simp [Outcome.state, on_blurButton_clicked, h, saveCurrentState_eq],
      by simp [Outcome.state, on_blurButton_clicked, h, saveCurrentState_eq],
      fun _ => ⟨_, rfl⟩⟩
  | crop ax ay =>
    obtain ⟨w, ht, rfl, rfl, hw0, hw, hh0, hh⟩ := he
    exact ⟨Outcome.returned _, map_returned_eq (crop_accepted_eq s w ht h hw0 hw hh0 hh),
      rfl, rfl, rfl, fun _ => ⟨_, rfl⟩⟩
  | grayscale =>
    refine ⟨_, rfl, ?_, ?_, ?_, fun _ => ⟨_, rfl⟩⟩ <;>
      cases hg : s.isgrayscaled <;>
      simp [Outcome.state, on_grayscaleButton_clicked, h, saveCurrentState_eq, hg]
  | Hflip =>
    refine ⟨_, rfl, ?_, ?_, ?_, fun _ => ⟨_, rfl⟩⟩ <;>
      cases hg : s.isflipped <;>
      simp [Outcome.state, on_HflipButton_clicked, h, saveCurrentState_eq, hg]
  | Vflip =>
    refine ⟨_, rfl, ?_, ?_, ?_, fun _ => ⟨_, rfl⟩⟩ <;>
      cases hg : s.isflipped <;>
      simp [Outcome.state, on_VflipButton_clicked, h, saveCurrentState_eq, hg]
  | saturation v =>
    exact ⟨_, rfl, by simp [Outcome.state, on_saturationButton_clicked, h, saveCurrentState_eq],
      by simp [Outcome.state, on_saturationButton_clicked, h, saveCurrentState_eq],
      by simp [Outcome.state, on_saturationButton_clicked, h, saveCurrentState_eq],
      fun _ => ⟨_, rfl⟩⟩
  | hue v =>
    by_cases hone : hueReturns s.image
    · exact ⟨_, congrArg some (hue_returns ops s v h hone), rfl, rfl, rfl, fun _ => ⟨_, rfl⟩⟩
    · refine ⟨_, congrArg some (hue_throws ops s v h hone), ?_, ?_, ?_,
        fun hr => absurd hr hone⟩ <;>
        simp [Outcome.state, saveCurrentState_eq s h]
  | brightness v =>
    exact ⟨_, rfl, by simp [Outcome.state, on_brightnessButton_clicked, h, saveCurrentState_eq],
      by simp [Outcome.state, on_brightnessButton_clicked, h, saveCurrentState_eq],
      by simp [Outcome.state, on_brightnessButton_clicked, h, saveCurrentState_eq],
      fun _ => ⟨_, rfl⟩⟩
  | gradient v =>
    exact ⟨_, rfl, by simp [Outcome.state, on_gradientButton_clicked, h, saveCurrentState_eq],
      by simp [Outcome.state, on_gradientButton_clicked, h, saveCurrentState_eq],
      by simp [Outcome.state, on_gradientButton_clicked, h, saveCurrentState_eq],
      fun _ => ⟨_, rfl⟩⟩
  | undo => exact absurd he (by simp [Op.isAppliedEdit])
  | redo => exact absurd he (by simp [Op.isAppliedEdit])

theorem cropAccepted_or_cropRejected (m : Mat) (ax ay : Option Int) :
    cropAccepted m ax ay ∨ cropRejected m ax ay := by
  cases ax with
  | none => exact Or.inr (Or.inl rfl)
  | some w =>
    cases ay with
    | none => exact Or.inr (Or.inr (Or.inl rfl))
    | some h =>
      by_cases hacc : 0 < w ∧ w ≤ (m.cols : Int) ∧ 0 < h ∧ h ≤ (m.rows : Int)
      · exact Or.inl ⟨w, h, rfl, rfl, hacc.1, hacc.2.1, hacc.2.2.1, hacc.2.2.2⟩
      · refine Or.inr (Or.inr (Or.inr ⟨w, h, rfl, rfl, ?_⟩))
        omega

/-- A rejected crop request only records what `toInt` returned. -/
theorem crop_rejected_eq (s : miniproj) (ax ay : Option Int)
    (hrej : cropRejected s.image ax ay) :
    on_cropButton_clicked s ax ay = some s ∨
      on_cropButton_clicked s ax ay =
        some { s with valuex := (toInt ax).1, valuey := (toInt ay).1 } := by
  cases hne : s.image.empty with
  | true => left; simp [on_cropButton_clicked, hne]
  | false =>
    right
    rcases hrej with rfl | rfl | ⟨w, h, rfl, rfl, hbad⟩
    · simp [on_cropButton_clicked, hne, toInt]
    · simp [on_cropButton_clicked, hne, toInt]
    · unfold on_cropButton_clicked
      simp only [hne, toInt, Bool.false_eq_true, if_false, Bool.not_true, Bool.or_self]
      by_cases h1 : w ≤ 0 ∨ h ≤ 0
      · rw [if_pos h1]
      · rw [if_neg h1, if_pos (by omega)]

theorem getLast?_cons_of_ne_nil {α : Type} (a : α) (l : List α) (h : l ≠ []) :
    (a :: l).getLast? = l.getLast? := by
  cases l with
  | nil => exact absurd rfl h
  | cons b rest => exact List.getLast?_cons_cons

/-- The state a successful undo leads to. -/
theorem undo_eq (s : miniproj) (a b : Mat) (rest : List Mat)
    (hu : s.undoStack = a :: b :: rest) :
    on_undoButton_clicked s =
      some { s with
        redoStack :=
          if s.preprocessedImage.empty then s.redoStack else s.preprocessedImage :: s.redoStack
        undoStack := b :: rest
        preprocessedImage := b } := by
  unfold on_undoButton_clicked
  cases hp : s.preprocessedImage.empty <;> simp [hu, Mat.clone]

/-- The state a refused undo leaves. -/
theorem undo_refused (s : miniproj) (h : s.undoStack.length ≤ 1) :
    on_undoButton_clicked s = some s := by
  unfold on_undoButton_clicked
  rw [if_pos h]

/-- The state a successful redo leads to. -/
theorem redo_eq (s : miniproj) (r : Mat) (rest : List Mat) (hr : s.redoStack = r :: rest) :
    on_redoButton_clicked s =
      some { s with
        undoStack := s.preprocessedImage :: s.undoStack
        preprocessedImage := r
        redoStack := rest } := by
  unfold on_redoButton_clicked
  simp [hr, Mat.clone]

/-- The state a refused redo leaves. -/
theorem redo_refused (s : miniproj) (h : s.redoStack = []) :
    on_redoButton_clicked s = some s := by
  unfold on_redoButton_clicked
  simp [h]

/-- Every button press, whether its slot returns or throws, keeps the original and the
bottom of `undoStack`. -/
theorem step_keeps_base (ops : ImageOps) (s : miniproj) (op : Op)
    (h : s.image.empty = false) (hu : s.undoStack ≠ []) :
    ∃ o, step ops s op = some o ∧ o.state.image = s.image ∧ o.state.undoStack ≠ [] ∧
      o.state.undoStack.getLast? = s.undoStack.getLast? := by
  have edit : op.isAppliedEdit s.image → ∃ o, step ops s op = some o ∧
      o.state.image = s.image ∧ o.state.undoStack ≠ [] ∧
      o.state.undoStack.getLast? = s.undoStack.getLast? := by
    intro he
    obtain ⟨o, ho, hi, hst, _, _⟩ := step_edit ops s op h he
    exact ⟨o, ho, hi, by simp [hst], by rw [hst]; exact getLast?_cons_of_ne_nil _ _ hu⟩
  cases op with
  | crop ax ay =>
    rcases cropAccepted_or_cropRejected s.image ax ay with hacc | hrej
    · exact edit hacc
    · rcases crop_rejected_eq s ax ay hrej with e | e
      · exact ⟨Outcome.returned _, map_returned_eq e, rfl, hu, rfl⟩
      · exact ⟨Outcome.returned _, map_returned_eq e, rfl, hu, rfl⟩
  | undo =>
    match hs : s.undoStack with
    | [] => exact absurd hs hu
    | [a] =>
      exact ⟨Outcome.returned _, map_returned_eq (undo_refused s (by simp [hs])), rfl, hu,
        by show s.undoStack.getLast? = [a].getLast?; rw [hs]⟩
    | a :: b :: rest =>
      exact ⟨Outcome.returned _, map_returned_eq (undo_eq s a b rest hs), rfl,
        by simp [Outcome.state], by simp [Outcome.state, List.getLast?_cons_cons]⟩
  | redo =>
    match hr : s.redoStack with
    | [] => exact ⟨Outcome.returned _, map_returned_eq (redo_refused s hr), rfl, hu, rfl⟩
    | r :: rest =>
      exact ⟨Outcome.returned _, map_returned_eq (redo_eq s r rest hr), rfl,
        by simp [Outcome.state], getLast?_cons_of_ne_nil _ _ hu⟩
  | blur v => exact edit trivial
  | grayscale => exact edit trivial
  | Hflip => exact edit trivial
  | Vflip => exact edit trivial
  | saturation v => exact edit trivial
  | hue v => exact edit trivial
  | brightness v => exact edit trivial
  | gradient v => exact edit trivial

/-- The state a successful load leads to. -/
theorem browse_loaded_eq (s : miniproj) (img : Mat) (h : img.empty = false) :
    on_browseButton_clicked s (some img) =
      { s with
        image := img
        preprocessedImage := img
        undoStack := [img]
        redoStack := []
        isgrayscaled := false
        isflipped := false } := by
  simp [on_browseButton_clicked, h, Mat.clone, popAll_eq_nil]

/-- A run of applied edits whose slots all return adds one entry to `undoStack` per edit
and keeps `redoStack` empty. -/
theorem run_edits (ops : ImageOps) (es : List Op) :
    ∀ s : miniproj, s.image.empty = false → s.redoStack = [] →
      (∀ e ∈ es, e.isAppliedEdit s.image ∧ e.returnsOn s.image) →
      ∃ t, run ops s es = some (Outcome.returned t) ∧ t.image = s.image ∧
        t.undoStack.length = s.undoStack.length + es.length ∧ t.redoStack = [] := by
  induction es with
  | nil => intro s _ hr _; exact ⟨s, rfl, rfl, rfl, hr⟩
  | cons e rest ih =>
    intro s h _ hes
    obtain ⟨hed, hret⟩ := hes e (List.mem_cons_self e rest)
    obtain ⟨o, ho, hi1, hu1, hr1, hret1⟩ := step_edit ops s e h hed
    obtain ⟨t1, rfl⟩ := hret1 hret
    obtain ⟨t, ht, hi, hu, hr⟩ := ih t1 (by rw [show t1.image = s.image from hi1]; exact h) hr1
      (fun e1 he1 => by
        rw [show t1.image = s.image from hi1]; exact hes e1 (List.mem_cons_of_mem e he1))
    refine ⟨t, ?_, by rw [hi]; exact hi1, ?_, hr⟩
    · simp only [run, ho, ht]
    · rw [hu, show t1.undoStack = snapshot s :: s.undoStack from hu1]
      simp only [List.length_cons]; omega

/-- A run of arbitrary button presses ends, at its last press or at a hue press that
throws, in a state with the original and the bottom of `undoStack` it started from. -/
theorem run_keeps_base (ops : ImageOps) (l : List Op) :
    ∀ s : miniproj, s.image.empty = false → s.undoStack ≠ [] →
      ∃ o, run ops s l = some o ∧ o.state.image = s.image ∧ o.state.undoStack ≠ [] ∧
        o.state.undoStack.getLast? = s.undoStack.getLast? := by
  induction l with
  | nil => intro s _ hu; exact ⟨_, rfl, rfl, hu, rfl⟩
  | cons op rest ih =>
    intro s h hu
    obtain ⟨o1, ho1, hi1, hu1, hl1⟩ := step_keeps_base ops s op h hu
    cases o1 with
    | returned t1 =>
      obtain ⟨o, ho, hi, hu2, hl⟩ :=
        ih t1 (by rw [show t1.image = s.image from hi1]; exact h) hu1
      exact ⟨o, by simp only [run, ho1, ho], by rw [hi]; exact hi1, hu2, by rw [hl]; exact hl1⟩
    | thrown t1 => exact ⟨_, by simp only [run, ho1], hi1, hu1, hl1⟩

/-- With a non-empty original, the current image that blur, saturation or brightness
produces is the same in any two states that agree on the original. -/
theorem recompute_independent (ops : ImageOps) (s1 s2 : miniproj) (e : Op)
    (he : e.isRecompute) (hne : s1.image.empty = false) (himg : s1.image = s2.image) :
    ∃ t1 t2, step ops s1 e = some (Outcome.returned t1) ∧
      step ops s2 e = some (Outcome.returned t2) ∧
      t1.preprocessedImage = t2.preprocessedImage := by
  have hne2 : s2.image.empty = false := by rw [← himg]; exact hne
  cases e with
  | blur v =>
    exact ⟨_, _, rfl, rfl, by
      simp [on_blurButton_clicked, hne, hne2, saveCurrentState_eq, himg]⟩
  | saturation v =>
    exact ⟨_, _, rfl, rfl, by
      simp [on_saturationButton_clicked, hne, hne2, saveCurrentState_eq, himg]⟩
  | brightness v =>
    exact ⟨_, _, rfl, rfl, by
      simp [on_brightnessButton_clicked, hne, hne2, saveCurrentState_eq, himg]⟩
  | hue v => exact absurd he (by simp [Op.isRecompute])
  | crop ax ay => exact absurd he (by simp [Op.isRecompute])
  | grayscale => exact absurd he (by simp [Op.isRecompute])
  | Hflip => exact absurd he (by simp [Op.isRecompute])
  | Vflip => exact absurd he (by simp [Op.isRecompute])
  | gradient v => exact absurd he (by simp [Op.isRecompute])
  | undo => exact absurd he (by simp [Op.isRecompute])
  | redo => exact absurd he (by simp [Op.isRecompute])

/-- A pixel of the region `r` is the pixel of `m` at the same offset from the corner of
`r`. -/
theorem pixelAt_subMat (m : Mat) (r : Rect) (i j : Nat) (hi : i < r.height.toNat)
    (hj : j < r.width.toNat) :
    (Mat.subMat m r).pixelAt i j = m.pixelAt (r.y.toNat + i) (r.x.toNat + j) := by
  unfold Mat.pixelAt Mat.subMat
  simp only [List.getElem?_map, List.getElem?_take, List.getElem?_drop, hi, if_true]
  cases m.data[r.y.toNat + i]? with
  | none => rfl
  | some row => simp [List.getElem?_take, List.getElem?_drop, hj]

/-- A region inside a well-formed matrix is well formed. -/
theorem subMat_WF (m : Mat) (r : Rect) (hm : m.WF) (hx : 0 ≤ r.x)
    (hxw : r.x + r.width ≤ (m.cols : Int)) (hy : 0 ≤ r.y)
    (hyh : r.y + r.height ≤ (m.rows : Int)) : (Mat.subMat m r).WF := by
  obtain ⟨hlen, hrow⟩ := hm
  constructor
  · simp only [Mat.subMat, List.length_map, List.length_take, List.length_drop, hlen]
    omega
  · intro row hrow1
    simp only [Mat.subMat, List.mem_map] at hrow1
    obtain ⟨row0, hmem, rfl⟩ := hrow1
    have hin : row0 ∈ m.data := List.mem_of_mem_drop (List.mem_of_mem_take hmem)
    simp only [List.length_take, List.length_drop, hrow row0 hin, Mat.subMat]
    omega

/-! ## The claims -/

/-- C2: in every state in which undo succeeds (`undoStack` has more than one entry) and the
current image is not empty, `on_undoButton_clicked` followed by `on_redoButton_clicked`
both succeed and leave the current image equal to the one before the undo. -/
theorem undo_then_redo_restores (s : miniproj) (hu : 1 < s.undoStack.length)
    (hp : s.preprocessedImage.empty = false) :
    ∃ s1 s2, on_undoButton_clicked s = some s1 ∧ on_redoButton_clicked s1 = some s2 ∧
      s2.preprocessedImage = s.preprocessedImage := by
  match hs : s.undoStack with
  | [] => rw [hs] at hu; simp at hu
  | [a] => rw [hs] at hu; simp at hu
  | a :: b :: rest =>
    refine ⟨_, _, undo_eq s a b rest hs, redo_eq _ s.preprocessedImage s.redoStack ?_, rfl⟩
    simp [hp]

/-- The claim C2 after loading `sampleImage` and raising the brightness by 50. -/
theorem undo_then_redo_restores_witness :
    1 < (on_brightnessButton_clicked sampleLoaded 50).undoStack.length ∧
    (on_brightnessButton_clicked sampleLoaded 50).preprocessedImage.empty = false ∧
    ∃ s1 s2, on_undoButton_clicked (on_brightnessButton_clicked sampleLoaded 50) = some s1 ∧
      on_redoButton_clicked s1 = some s2 ∧
      s2.preprocessedImage = (on_brightnessButton_clicked sampleLoaded 50).preprocessedImage :=
  ⟨by decide, by decide,
    undo_then_redo_restores (on_brightnessButton_clicked sampleLoaded 50) (by decide) (by decide)⟩

/-- C3: after a successful load of a non-empty image `img`, every sequence of button presses
(edits, accepted and rejected crops, undo, redo) ends, at its last press or at a hue press
whose slot throws, in a state whose `undoStack` is non-empty with `img` as its bottom entry;
an undo on a stack of at most one entry changes nothing, and `undoStack.top()` in undo is
defined in every state. -/
theorem undoStack_base_never_popped (ops : ImageOps) (s0 : miniproj) (img : Mat)
    (l : List Op) (himg : img.empty = false) :
    (∃ o, run ops (on_browseButton_clicked s0 (some img)) l = some o ∧
      o.state.undoStack ≠ [] ∧ o.state.undoStack.getLast? = some img) ∧
    (∀ s : miniproj, s.undoStack.length ≤ 1 → on_undoButton_clicked s = some s) ∧
    (∀ s : miniproj, (on_undoButton_clicked s).isSome = true) := by
  refine ⟨?_, undo_refused, ?_⟩
  · have hL := browse_loaded_eq s0 img himg
    have hi : (on_browseButton_clicked s0 (some img)).image = img := by rw [hL]
    have hu0 : (on_browseButton_clicked s0 (some img)).undoStack = [img] := by rw [hL]
    obtain ⟨o, ho, _, hu, hl⟩ := run_keeps_base ops l
      (on_browseButton_clicked s0 (some img)) (by rw [hi]; exact himg) (by rw [hu0]; simp)
    exact ⟨o, ho, hu, by rw [hl, hu0]; rfl⟩
  · intro s
    match hs : s.undoStack with
    | [] => rw [undo_refused s (by simp [hs])]; rfl
    | [a] => rw [undo_refused s (by simp [hs])]; rfl
    | a :: b :: rest => rw [undo_eq s a b rest hs]; rfl

/-- The claim C3 on a run that mixes edits, a rejected crop, refused and successful undos,
a redo and a hue press. -/
theorem undoStack_base_never_popped_witness :
    sampleImage.empty = false ∧
    ((∃ o, run sampleOps (on_browseButton_clicked sampleStart (some sampleImage))
        [Op.undo, Op.blur 5, Op.crop (some 3) (some 1), Op.undo, Op.undo, Op.redo,
          Op.grayscale, Op.hue 20, Op.Hflip] = some o ∧
      o.state.undoStack ≠ [] ∧ o.state.undoStack.getLast? = some sampleImage) ∧
    (∀ s : miniproj, s.undoStack.length ≤ 1 → on_undoButton_clicked s = some s) ∧
    (∀ s : miniproj, (on_undoButton_clicked s).isSome = true)) :=
  ⟨by decide, undoStack_base_never_popped sampleOps sampleStart sampleImage _ (by decide)⟩

/-- C4: with a non-empty original, two presses of the grayscale button from a state whose
grayscale flag is false leave the current image equal to the original and the flag false;
two presses of the horizontal flip button, or two of the vertical flip button, from a state
whose flip flag is false leave the current image equal to the original and the flip flag
false. -/
theorem toggle_twice_restores_original (ops : ImageOps) (s : miniproj)
    (hne : s.image.empty = false) :
    (s.isgrayscaled = false →
      (on_grayscaleButton_clicked ops (on_grayscaleButton_clicked ops s)).preprocessedImage
          = s.image ∧
      (on_grayscaleButton_clicked ops (on_grayscaleButton_clicked ops s)).isgrayscaled
          = false) ∧
    (s.isflipped = false →
      (on_HflipButton_clicked (on_HflipButton_clicked s)).preprocessedImage = s.image ∧
      (on_HflipButton_clicked (on_HflipButton_clicked s)).isflipped = false) ∧
    (s.isflipped = false →
      (on_VflipButton_clicked (on_VflipButton_clicked s)).preprocessedImage = s.image ∧
      (on_VflipButton_clicked (on_VflipButton_clicked s)).isflipped = false) := by
  refine ⟨?_, ?_, ?_⟩
  · intro hg
    have h1 : (on_grayscaleButton_clicked ops s).image = s.image := by
      simp [on_grayscaleButton_clicked, hne, saveCurrentState_eq, hg]
    have h2 : (on_grayscaleButton_clicked ops s).isgrayscaled = true := by
      simp [on_grayscaleButton_clicked, hne, saveCurrentState_eq, hg]
    have h3 : (on_grayscaleButton_clicked ops s).image.empty = false := by rw [h1]; exact hne
    constructor
    · rw [← h1]
      generalize on_grayscaleButton_clicked ops s = t at h2 h3
      simp [on_grayscaleButton_clicked, h3, saveCurrentState_eq, h2, Mat.clone]
    · generalize on_grayscaleButton_clicked ops s = t at h2 h3
      simp [on_grayscaleButton_clicked, h3, saveCurrentState_eq, h2]
  · intro hf
    have h1 : (on_HflipButton_clicked s).image = s.image := by
      simp [on_HflipButton_clicked, hne, saveCurrentState_eq, hf]
    have h2 : (on_HflipButton_clicked s).isflipped = true := by
      simp [on_HflipButton_clicked, hne, saveCurrentState_eq, hf]
    have h3 : (on_HflipButton_clicked s).image.empty = false := by rw [h1]; exact hne
    constructor
    · rw [← h1]
      generalize on_HflipButton_clicked s = t at h2 h3
      simp [on_HflipButton_clicked, h3, saveCurrentState_eq, h2, Mat.clone]
    · generalize on_HflipButton_clicked s = t at h2 h3
      simp [on_HflipButton_clicked, h3, saveCurrentState_eq, h2]
  · intro hf
    have h1 : (on_VflipButton_clicked s).image = s.image := by
      simp [on_VflipButton_clicked, hne, saveCurrentState_eq, hf]
    have h2 : (on_VflipButton_clicked s).isflipped = true := by
      simp [on_VflipButton_clicked, hne, saveCurrentState_eq, hf]
    have h3 : (on_VflipButton_clicked s).image.empty = false := by rw [h1]; exact hne
    constructor
    · rw [← h1]
      generalize on_VflipButton_clicked s = t at h2 h3
      simp [on_VflipButton_clicked, h3, saveCurrentState_eq, h2, Mat.clone]
    · generalize on_VflipButton_clicked s = t at h2 h3
      simp [on_VflipButton_clicked, h3, saveCurrentState_eq, h2]

/-- The claim C4 right after loading `sampleImage`, where both flags are false. -/
theorem toggle_twice_restores_original_witness :
    sampleLoaded.image.empty = false ∧
    ((sampleLoaded.isgrayscaled = false →
      (on_grayscaleButton_clicked sampleOps
          (on_grayscaleButton_clicked sampleOps sampleLoaded)).preprocessedImage
          = sampleLoaded.image ∧
      (on_grayscaleButton_clicked sampleOps
          (on_grayscaleButton_clicked sampleOps sampleLoaded)).isgrayscaled = false) ∧
    (sampleLoaded.isflipped = false →
      (on_HflipButton_clicked (on_HflipButton_clicked sampleLoaded)).preprocessedImage
          = sampleLoaded.image ∧
      (on_HflipButton_clicked (on_HflipButton_clicked sampleLoaded)).isflipped = false) ∧
    (sampleLoaded.isflipped = false →
      (on_VflipButton_clicked (on_VflipButton_clicked sampleLoaded)).preprocessedImage
          = sampleLoaded.image ∧
      (on_VflipButton_clicked (on_VflipButton_clicked sampleLoaded)).isflipped = false)) :=
  ⟨by decide, toggle_twice_restores_original sampleOps sampleLoaded (by decide)⟩

/-- C5: a crop request that is rejected (a field that is not a number, a non-positive
dimension, or a width or height larger than the original) returns normally and leaves the
current image, `undoStack`, `redoStack`, the original and both flags as they were. -/
theorem crop_rejected_no_change (s : miniproj) (axisX axisY : Option Int)
    (hrej : cropRejected s.image axisX axisY) :
    ∃ t, on_cropButton_clicked s axisX axisY = some t ∧
      t.preprocessedImage = s.preprocessedImage ∧ t.undoStack = s.undoStack ∧
      t.redoStack = s.redoStack ∧ t.image = s.image ∧
      t.isgrayscaled = s.isgrayscaled ∧ t.isflipped = s.isflipped := by
  rcases crop_rejected_eq s axisX axisY hrej with e | e
  · exact ⟨_, e, rfl, rfl, rfl, rfl, rfl, rfl⟩
  · exact ⟨_, e, rfl, rfl, rfl, rfl, rfl, rfl⟩

/-- The claim C5 for a request of 3 by 1 pixels on the 2 by 2 `sampleImage`, after one
edit. -/
theorem crop_rejected_no_change_witness :
    cropRejected (on_brightnessButton_clicked sampleLoaded 50).image (some 3) (some 1) ∧
    ∃ t, on_cropButton_clicked (on_brightnessButton_clicked sampleLoaded 50) (some 3) (some 1)
        = some t ∧
      t.preprocessedImage = (on_brightnessButton_clicked sampleLoaded 50).preprocessedImage ∧
      t.undoStack = (on_brightnessButton_clicked sampleLoaded 50).undoStack ∧
      t.redoStack = (on_brightnessButton_clicked sampleLoaded 50).redoStack ∧
      t.image = (on_brightnessButton_clicked sampleLoaded 50).image ∧
      t.isgrayscaled = (on_brightnessButton_clicked sampleLoaded 50).isgrayscaled ∧
      t.isflipped = (on_brightnessButton_clicked sampleLoaded 50).isflipped :=
  have h : cropRejected (on_brightnessButton_clicked sampleLoaded 50).image (some 3) (some 1) :=
    Or.inr (Or.inr ⟨3, 1, rfl, rfl, Or.inr (Or.inr (Or.inl (by decide)))⟩)
  ⟨h, crop_rejected_no_change (on_brightnessButton_clicked sampleLoaded 50) (some 3) (some 1) h⟩

/-- C7: an accepted crop request `0 < w ≤ W`, `0 < h ≤ H` on a non-empty original of
`W` columns and `H` rows succeeds; the new current image is the submatrix of the original
for the rectangle of width `w` and height `h` whose corner is `((W - w) / 2, (H - h) / 2)`
in integer division; it has `h` rows and `w` columns, its pixel `(i, j)` is the pixel of the
original at `((H - h) / 2 + i, (W - w) / 2 + j)`, it is well formed when the original is;
and the rectangle lies inside the original. -/
theorem crop_extracts_centered_region (s : miniproj) (w h : Int)
    (hne : s.image.empty = false) (hw0 : 0 < w) (hw : w ≤ (s.image.cols : Int))
    (hh0 : 0 < h) (hh : h ≤ (s.image.rows : Int)) :
    ∃ t, on_cropButton_clicked s (some w) (some h) = some t ∧
      s.image.roi
          { x := ((s.image.cols : Int) - w) / 2, y := ((s.image.rows : Int) - h) / 2,
            width := w, height := h } = some t.preprocessedImage ∧
      (t.preprocessedImage.rows : Int) = h ∧ (t.preprocessedImage.cols : Int) = w ∧
      (∀ i j : Nat, (i : Int) < h → (j : Int) < w →
        t.preprocessedImage.pixelAt i j =
          s.image.pixelAt ((((s.image.rows : Int) - h) / 2).toNat + i)
            ((((s.image.cols : Int) - w) / 2).toNat + j)) ∧
      (s.image.WF → t.preprocessedImage.WF) ∧
      0 ≤ ((s.image.cols : Int) - w) / 2 ∧
      ((s.image.cols : Int) - w) / 2 + w ≤ (s.image.cols : Int) ∧
      0 ≤ ((s.image.rows : Int) - h) / 2 ∧
      ((s.image.rows : Int) - h) / 2 + h ≤ (s.image.rows : Int) := by
  obtain ⟨ex, hx0, hx1⟩ := crop_origin_bounds (s.image.cols : Int) w hw
  obtain ⟨ey, hy0, hy1⟩ := crop_origin_bounds (s.image.rows : Int) h hh
  have hroi := roi_cropRegion s.image w h hw0 hw hh0 hh
  unfold cropRegion at hroi
  rw [← ex, ← ey]
  refine ⟨_, crop_accepted_eq s w h hne hw0 hw hh0 hh, hroi, ?_, ?_, ?_, ?_, hx0, hx1, hy0, hy1⟩
  · exact Int.toNat_of_nonneg (le_of_lt hh0)
  · exact Int.toNat_of_nonneg (le_of_lt hw0)
  · intro i j hi hj
    exact pixelAt_subMat s.image (cropRegion s.image w h) i j
      (by show i < h.toNat; omega) (by show j < w.toNat; omega)
  · intro hwf
    exact subMat_WF s.image (cropRegion s.image w h) hwf hx0 hx1 hy0 hy1

/-- The claim C7 for a crop of 1 by 2 pixels out of the 2 by 2 `sampleImage`. -/
theorem crop_extracts_centered_region_witness :
    sampleLoaded.image.empty = false ∧ (0 : Int) < 1 ∧ (1 : Int) ≤ (sampleLoaded.image.cols : Int) ∧
    (0 : Int) < 2 ∧ (2 : Int) ≤ (sampleLoaded.image.rows : Int) ∧
    ∃ t, on_cropButton_clicked sampleLoaded (some 1) (some 2) = some t ∧
      sampleLoaded.image.roi
          { x := ((sampleLoaded.image.cols : Int) - 1) / 2,
            y := ((sampleLoaded.image.rows : Int) - 2) / 2,
            width := 1, height := 2 } = some t.preprocessedImage ∧
      (t.preprocessedImage.rows : Int) = 2 ∧ (t.preprocessedImage.cols : Int) = 1 ∧
      (∀ i j : Nat, (i : Int) < 2 → (j : Int) < 1 →
        t.preprocessedImage.pixelAt i j =
          sampleLoaded.image.pixelAt ((((sampleLoaded.image.rows : Int) - 2) / 2).toNat + i)
            ((((sampleLoaded.image.cols : Int) - 1) / 2).toNat + j)) ∧
      (sampleLoaded.image.WF → t.preprocessedImage.WF) ∧
      0 ≤ ((sampleLoaded.image.cols : Int) - 1) / 2 ∧
      ((sampleLoaded.image.cols : Int) - 1) / 2 + 1 ≤ (sampleLoaded.image.cols : Int) ∧
      0 ≤ ((sampleLoaded.image.rows : Int) - 2) / 2 ∧
      ((sampleLoaded.image.rows : Int) - 2) / 2 + 2 ≤ (sampleLoaded.image.rows : Int) :=
  ⟨by decide, by decide, by decide, by decide, by decide,
    crop_extracts_centered_region sampleLoaded 1 2 (by decide) (by decide) (by decide)
      (by decide) (by decide)⟩

/-- C9: the editor after loading `sampleImage` and the editor after loading it and
flipping it horizontally have the same original; a press of the hue button at 20 throws in
both, for every behaviour of the library calls, before the current image is assigned, so
the two current images stay the loaded image and its mirror image, which differ. -/
theorem hue_press_keeps_prior_current (ops : ImageOps) :
    sampleLoaded.image = (on_HflipButton_clicked sampleLoaded).image ∧
    on_hueButton_clicked ops sampleLoaded 20 = Outcome.thrown (saveCurrentState sampleLoaded) ∧
    on_hueButton_clicked ops (on_HflipButton_clicked sampleLoaded) 20 =
      Outcome.thrown (saveCurrentState (on_HflipButton_clicked sampleLoaded)) ∧
    (saveCurrentState sampleLoaded).preprocessedImage = sampleImage ∧
    (saveCurrentState (on_HflipButton_clicked sampleLoaded)).preprocessedImage
      = flip sampleImage 1 ∧
    flip sampleImage 1 ≠ sampleImage :=
  ⟨by decide, hue_throws ops sampleLoaded 20 (by decide) (fun hone => absurd hone.1 (by decide)),
    hue_throws ops (on_HflipButton_clicked sampleLoaded) 20 (by decide)
      (fun hone => absurd hone.1 (by decide)),
    by decide, by decide, by decide⟩

/-- C6: a failed load on an editor that holds `sampleImage` leaves the current image, both
stacks and both flags alone but replaces the original by the empty matrix `imread`
returned; after it the edit buttons return at once while undo still has its history. -/
theorem failed_load_replaces_original :
    on_browseButton_clicked (on_brightnessButton_clicked sampleLoaded 50) (some Mat.noArray)
      = { on_brightnessButton_clicked sampleLoaded 50 with image := Mat.noArray } ∧
    (on_brightnessButton_clicked sampleLoaded 50).image = sampleImage ∧
    sampleImage ≠ Mat.noArray ∧
    on_HflipButton_clicked
        (on_browseButton_clicked (on_brightnessButton_clicked sampleLoaded 50) (some Mat.noArray))
      = on_browseButton_clicked (on_brightnessButton_clicked sampleLoaded 50) (some Mat.noArray) := by
  decide

/-- C8: on the hue element 10 a slider shift of -20 gives 0, where wrapping into
`[0, 180]` gives 170, and on the hue element 180 a shift of 180 gives 75, where wrapping
gives 180: the 8-bit sum saturates at 0 and at 255 before the two range tests, and the
test for a negative element never holds.  The example of the specification, 170 shifted by
20, does give 10. -/
theorem hue_shift_saturates :
    hueElement 10 (-20) = 0 ∧ hueElement 180 180 = 75 ∧ hueElement 170 20 = 10 := by
  decide

/-- C10: after loading `sampleImage`, raising the brightness by 50 and then by 20, undo
succeeds and sets the current image to the loaded image, not to the image the first edit
produced, which was the current image before the second edit; `undoStack` then holds two
entries, both the loaded image. -/
theorem undo_after_second_edit_skips_first :
    (on_undoButton_clicked
        (on_brightnessButton_clicked (on_brightnessButton_clicked sampleLoaded 50) 20)).map
      (fun t => (t.preprocessedImage, t.undoStack))
      = some (sampleImage, [sampleImage, sampleImage]) ∧
    (on_brightnessButton_clicked sampleLoaded 50).preprocessedImage
      = convertTo sampleImage 50 ∧
    convertTo sampleImage 50 ≠ sampleImage := by
  decide

end Miniproj
